import Mathlib

/-!
# Verification of the celebrity-marriage survival-analysis pipeline

Shallow embedding of the statistical core of the `celebrity-marriage-analysis`
repository: record normalization (date handling, censored-duration
computation), the per-row event classifiers of the analysis scripts, the
feature derivations (age gap, child-star flag, children bucket), the
training-set construction for the logistic model, and the Kaplan-Meier
estimator and Cox-fit input validation that the scripts invoke through the
`lifelines` library.

Dates parsed by `pd.to_datetime(..., errors='coerce')` are modelled as
`Option Int`: `none` is a missing/unparseable value (`NaT`), `some d` is the
parsed date as a day number (days since an arbitrary fixed epoch; pandas
subtraction of two dates yields exactly the difference of their day numbers
via `.dt.days`).  Numeric columns that may hold `NaN` are `Option ℚ`.
-/

/-! ## String containment, as used by the event classifiers

The Python classifiers test `'death' in str(row['End_Cause']).lower()`.
`listStarts n h` is `h` starting with `n`; `listHasSub n h` is `n` occurring
as a contiguous substring of `h`. -/

def listStarts : List Char → List Char → Bool
  | [], _ => true
  | _ :: _, [] => false
  | a :: as, b :: bs => a == b && listStarts as bs

def listHasSub (needle : List Char) : List Char → Bool
  | [] => needle.isEmpty
  | b :: bs => listStarts needle (b :: bs) || listHasSub needle bs

/-- Python `str.lower()` on the character list (per-character lowering). -/
def lowerList (l : List Char) : List Char := l.map Char.toLower

/-- Python `str(x)` applied to the `End_Cause` cell: a missing cell is the
float `nan`, which stringifies to `"nan"`. -/
def strOfCause : Option String → String
  | none => "nan"
  | some s => s

theorem listStarts_iff (n h : List Char) :
    listStarts n h = true ↔ ∃ r, h = n ++ r := by
  induction n generalizing h with
  | nil =>
    simp [listStarts]
  | cons a as ih =>
    cases h with
    | nil =>
      simp [listStarts]
    | cons b bs =>
      simp only [listStarts, Bool.and_eq_true, beq_iff_eq, ih, List.cons_append,
        List.cons.injEq]
      constructor
      · rintro ⟨rfl, r, rfl⟩
        exact ⟨r, rfl, rfl⟩
      · rintro ⟨r, rfl, rfl⟩
        exact ⟨rfl, r, rfl⟩

theorem listHasSub_iff (n h : List Char) :
    listHasSub n h = true ↔ ∃ l r, h = l ++ n ++ r := by
  induction h with
  | nil =>
    simp only [listHasSub, List.isEmpty_iff]
    constructor
    · rintro rfl
      exact ⟨[], [], rfl⟩
    · rintro ⟨l, r, hlr⟩
      rcases List.append_eq_nil.mp (List.append_eq_nil.mp hlr.symm).1 with ⟨-, h2⟩
      exact h2
  | cons b bs ih =>
    simp only [listHasSub, Bool.or_eq_true, listStarts_iff, ih]
    constructor
    · rintro (⟨r, hr⟩ | ⟨l, r, hlr⟩)
      · exact ⟨[], r, by simpa using hr⟩
      · exact ⟨b :: l, r, by simp [hlr]⟩
    · rintro ⟨l, r, hlr⟩
      cases l with
      | nil =>
        exact Or.inl ⟨r, by simpa using hlr⟩
      | cons x xs =>
        simp only [List.cons_append, List.cons.injEq] at hlr
        exact Or.inr ⟨xs, r, hlr.2⟩

/-- A map of a list decomposes as an append only along a decomposition of the
original list. -/
theorem map_append_decomp {α β : Type} (f : α → β) (h : List α) (L M : List β)
    (hEq : h.map f = L ++ M) :
    ∃ l m, h = l ++ m ∧ l.map f = L ∧ m.map f = M := by
  induction L generalizing h with
  | nil =>
    exact ⟨[], h, by simpa using hEq⟩
  | cons x xs ih =>
    cases h with
    | nil => simp at hEq
    | cons a as =>
      simp only [List.map_cons, List.cons_append, List.cons.injEq] at hEq
      obtain ⟨l, m, rfl, hl, hm⟩ := ih as hEq.2
      exact ⟨a :: l, m, rfl, by simp [hEq.1, hl], hm⟩

/-- The specification's notion of a case-insensitive substring match: some
contiguous piece of `hay` equals `needle` up to per-character lowercasing. -/
def CaseInsensSub (needle hay : String) : Prop :=
  ∃ l m r : List Char, hay.toList = l ++ m ++ r ∧
    lowerList m = lowerList needle.toList

/-- The classifiers' test (lowercase both, then exact substring search)
decides exactly the case-insensitive substring relation. -/
theorem listHasSub_lower_iff (needle hay : String) :
    listHasSub (lowerList needle.toList) (lowerList hay.toList) = true ↔
      CaseInsensSub needle hay := by
  rw [listHasSub_iff]
  constructor
  · rintro ⟨l, r, hlr⟩
    obtain ⟨l', mr, hsplit, hl', hmr⟩ :=
      map_append_decomp Char.toLower hay.toList l
        (lowerList needle.toList ++ r) (by simpa [lowerList, List.append_assoc] using hlr)
    obtain ⟨m', r', hsplit2, hm', hr'⟩ :=
      map_append_decomp Char.toLower mr (lowerList needle.toList) r hmr
    refine ⟨l', m', r', ?_, hm'⟩
    rw [hsplit, hsplit2]
    exact (List.append_assoc l' m' r').symm
  · rintro ⟨l, m, r, hlr, hm⟩
    refine ⟨lowerList l, lowerList r, ?_⟩
    have hrw : lowerList hay.toList = lowerList (l ++ m ++ r) := by rw [hlr]
    rw [hrw]
    simp only [lowerList, List.map_append, List.append_assoc] at hm ⊢
    rw [hm]

/-! ## Event classifiers

`get_event_status` is the classifier of `analysis.py` and `step2_analysis.py`
(they define it identically): censored (0) when `End_Date` is missing, or when
the stringified, lowercased `End_Cause` contains `'death'` or `'widow'`;
otherwise an observed divorce/separation event (1).

`get_status` is the classifier of `step3_comparative_analysis.py`,
`step5_psycho_economic_analysis.py` and `step7_culture_analysis.py` (defined
identically in each): the same shape, but it only tests for `'death'`. -/

def get_event_status (endDate : Option Int) (endCause : Option String) : Nat :=
  match endDate with
  | none => 0
  | some _ =>
    let cause := lowerList (strOfCause endCause).toList
    if listHasSub "death".toList cause || listHasSub "widow".toList cause then 0
    else 1

def get_status (endDate : Option Int) (endCause : Option String) : Nat :=
  match endDate with
  | none => 0
  | some _ =>
    if listHasSub "death".toList (lowerList (strOfCause endCause).toList) then 0
    else 1

/-! ## Raw records and the shared normalization of the analysis scripts

`RawRecord` is one row of `celebrity_marriages_enriched.csv` after
`pd.to_datetime(..., errors='coerce')` on the four date columns, restricted
to the fields the statistical core reads. -/

structure RawRecord where
  startDate : Option Int
  endDate : Option Int
  celebrityBirth : Option Int
  spouseBirth : Option Int
  endCause : Option String
  celebrityFameScore : Option ℚ
  spouseFameScore : Option ℚ
deriving DecidableEq, Repr

/-- A normalized row, as produced by the cleaning block shared verbatim by
`analysis.py` and `step2_analysis.py`:
`df = df.dropna(subset=['Start_Date'])`;
`Observed_End_Date = End_Date.fillna(today)`;
`Duration_Days = (Observed_End_Date - Start_Date).dt.days`;
`Duration_Years = Duration_Days / 365.25`;
`df = df[df['Duration_Days'] > 0]`;
`Event_Divorce = df.apply(get_event_status, axis=1)`. -/
structure NRec where
  startDate : Int
  endDate : Option Int
  celebrityBirth : Option Int
  spouseBirth : Option Int
  endCause : Option String
  celebrityFameScore : Option ℚ
  spouseFameScore : Option ℚ
  durationDays : Int
  durationYears : ℚ
  eventDivorce : Nat
deriving DecidableEq, Repr

/-- The value `365.25` used by every script, as an exact rational. -/
def daysPerYear : ℚ := 365.25

/-- The cleaning/feature block of `analysis.py` (also `step2_analysis.py`,
whose cleaning lines are identical), one `filterMap` pass joining the
row-wise dataframe operations: rows without a start date are dropped, the
censored duration is computed against `today`, rows with non-positive
`Duration_Days` are dropped, and the event flag is `get_event_status`.
(The source computes `Event_Divorce` after the duration filter; both columns
are per-row pure, so a single pass is extensionally the same.) -/
def normalizeA (today : Int) (raws : List RawRecord) : List NRec :=
  (raws.filterMap fun r =>
    match r.startDate with
    | none => none
    | some s =>
      let observedEnd := r.endDate.getD today
      let dd := observedEnd - s
      some { startDate := s
             endDate := r.endDate
             celebrityBirth := r.celebrityBirth
             spouseBirth := r.spouseBirth
             endCause := r.endCause
             celebrityFameScore := r.celebrityFameScore
             spouseFameScore := r.spouseFameScore
             durationDays := dd
             durationYears := (dd : ℚ) / daysPerYear
             eventDivorce := get_event_status r.endDate r.endCause }).filter
    fun n => 0 < n.durationDays

/-- `analysis.py`: `Age_Gap = abs((Celebrity_Birth - Spouse_Birth).dt.days / 365.25)`;
missing birth dates give a missing age gap (`NaN` propagates). -/
def ageGap (n : NRec) : Option ℚ :=
  match n.celebrityBirth, n.spouseBirth with
  | some cb, some sb => some |((cb - sb : Int) : ℚ) / daysPerYear|
  | _, _ => none

/-- `analysis.py` lines 37-38:
`df_clean = df.dropna(subset=['Age_Gap']); df_clean = df_clean[df_clean['Age_Gap'] < 60]`.
Every statistic and plot of `analysis.py` below those lines is computed on
`df_clean`. -/
def df_clean (today : Int) (raws : List RawRecord) : List NRec :=
  (normalizeA today raws).filter fun n =>
    match ageGap n with
    | some g => decide (g < 60)
    | none => false

/-- The record set underlying the age-gap-stratified statistics of
`analysis.py` (`age_gap_stats`, the `Age_Gap_Bin` group-by and the related
plots): they group `df_clean`. -/
def ageGapStatsInput (today : Int) (raws : List RawRecord) : List NRec :=
  df_clean today raws

/-- The record set underlying `analysis.py` lines 56-60 (`fame_stats`, the
spouse-type statistics, which are not stratified by age gap): the source
groups `df_clean` there as well. -/
def fameStatsInput (today : Int) (raws : List RawRecord) : List NRec :=
  df_clean today raws

/-! ## The logistic-regression training set of `step2_analysis.py`

`model_data = df[ (df['Event_Divorce']==1) | (df['Duration_Years'] > 5) ]`;
`model_data['Target_Short_Marriage'] = (model_data['Duration_Years'] <= 5).astype(int)`. -/

def model_data (today : Int) (raws : List RawRecord) : List NRec :=
  (normalizeA today raws).filter fun n =>
    n.eventDivorce == 1 || decide (5 < n.durationYears)

def Target_Short_Marriage (n : NRec) : Nat :=
  if n.durationYears ≤ 5 then 1 else 0

/-! ## The preliminary report of `data_check.py`

`data_check.py` parses the two date columns of
`celebrity_marriages_wikidata.csv`, computes the same censored duration, and
labels each row `'Ended'`/`'Ongoing'` — but it drops no row at all: there is
no `dropna(subset=['Start_Date'])` and no `Duration_Days > 0` filter. -/

structure RawWikidataRecord where
  startDate : Option Int
  endDate : Option Int
deriving DecidableEq, Repr

structure CheckRec where
  startDate : Option Int
  endDate : Option Int
  durationDays : Option Int
  durationYears : Option ℚ
  status : String
deriving DecidableEq, Repr

/-- The cleaning block of `data_check.py` (lines 10-22): every input row is
retained; a missing start date makes the duration missing (`NaT - date` is
`NaT` in pandas), and `Status` is `'Ended'` iff an end date is present. -/
def dataCheckNormalize (today : Int) (raws : List RawWikidataRecord) : List CheckRec :=
  raws.map fun r =>
    let dd : Option Int :=
      match r.startDate with
      | none => none
      | some s => some (r.endDate.getD today - s)
    { startDate := r.startDate
      endDate := r.endDate
      durationDays := dd
      durationYears := dd.map fun d => (d : ℚ) / daysPerYear
      status := if r.endDate.isSome then "Ended" else "Ongoing" }

/-! ## The psycho-economic pipeline of `step5_psycho_economic_analysis.py`

One row of `celebrity_psycho_economics.csv` after
`pd.to_datetime(..., errors='coerce')` on `Start_Date`, `End_Date`,
`Celebrity_Birth` and `Career_Start_Year`.  pandas parses a bare year
`YYYY` as the date `YYYY-01-01`, so `careerStart` is a day number like the
other dates. -/

structure RawRecord5 where
  startDate : Option Int
  endDate : Option Int
  celebrityBirth : Option Int
  careerStart : Option Int
  endCause : Option String
  childrenCount : Option ℚ
  awardsCount : Option ℚ
deriving DecidableEq, Repr

/-- `step5_psycho_economic_analysis.py` line 44:
`Children_Category = pd.cut(df['Children_Count'], bins=[-1, 0, 2, 20], labels=['No Kids', '1-2 Kids', '3+ Kids'])`.
`pd.cut` with default `right=True` sorts a value into the half-open
intervals `(-1, 0]`, `(0, 2]`, `(2, 20]`; a value outside every bin gets no
category (`NaN`). -/
def Children_Category (c : ℚ) : Option String :=
  if -1 < c ∧ c ≤ 0 then some "No Kids"
  else if 0 < c ∧ c ≤ 2 then some "1-2 Kids"
  else if 2 < c ∧ c ≤ 20 then some "3+ Kids"
  else none

/-- A row of the step-5 dataframe after
`df = df.dropna(subset=['Start_Date', 'Celebrity_Birth', 'Career_Start_Year'])`
and the duration computation (`Duration_Years = (Observed_End_Date - Start_Date).dt.days / 365.25`),
with the columns computed further down the script
(`Event`, `Age_At_Debut`, `Is_Child_Star_Binary`, `Children_Category`). -/
structure NRec5 where
  durationDays : Int
  durationYears : ℚ
  event : Nat
  ageAtDebut : ℚ
  isChildStarBinary : Nat
  childrenCount : Option ℚ
  awardsCount : Option ℚ
  childrenCategory : Option String
deriving DecidableEq, Repr

/-- Step 5 up to and including `df = df[df['Duration_Years'] > 0]`, with the
downstream per-row columns already attached (each is a pure function of the
row, so attaching them in the same pass is extensionally the same):
`Age_At_Debut = (Career_Start_Year - Celebrity_Birth).dt.days / 365.25`,
`Is_Child_Star_Binary = np.where(Age_At_Debut < 16, 1, 0)`, and
`Children_Category` via `pd.cut` (`NaN` count stays uncategorized). -/
def step5AfterDuration (today : Int) (raws : List RawRecord5) : List NRec5 :=
  (raws.filterMap fun r =>
    match r.startDate, r.celebrityBirth, r.careerStart with
    | some s, some cb, some cs =>
      let dd := r.endDate.getD today - s
      let dy : ℚ := (dd : ℚ) / daysPerYear
      let age : ℚ := ((cs - cb : Int) : ℚ) / daysPerYear
      some { durationDays := dd
             durationYears := dy
             event := get_status r.endDate r.endCause
             ageAtDebut := age
             isChildStarBinary := if age < 16 then 1 else 0
             childrenCount := r.childrenCount
             awardsCount := r.awardsCount
             childrenCategory := r.childrenCount.bind fun c => Children_Category c }
    | _, _, _ => none).filter
    fun n => 0 < n.durationYears

/-- Step 5 line 37: `df = df[(df['Age_At_Debut'] > 0) & (df['Age_At_Debut'] < 80)]`.
This is the dataframe every step-5 analysis (child-star Kaplan-Meier,
children-bucket curves, Cox model) runs on. -/
def step5Normalized (today : Int) (raws : List RawRecord5) : List NRec5 :=
  (step5AfterDuration today raws).filter fun n =>
    decide (0 < n.ageAtDebut) && decide (n.ageAtDebut < 80)

/-! ## Cox proportional-hazards fit input (`step5`, lines 48-54)

`cox_data = df[['Duration_Years', 'Event', 'Is_Child_Star_Binary', 'Children_Count', 'Awards_Count']]`,
then `cph.fit(cox_data, duration_col='Duration_Years', event_col='Event')`. -/

structure CoxRow where
  duration : Option ℚ
  event : Option ℚ
  isChildStar : Option ℚ
  childrenCount : Option ℚ
  awardsCount : Option ℚ
deriving DecidableEq, Repr

/-- The column selection `df[['Duration_Years', 'Event', 'Is_Child_Star_Binary', 'Children_Count', 'Awards_Count']]`
on the normalized step-5 dataframe.  The first three columns are computed
for every retained row, so they are always present; `Children_Count` and
`Awards_Count` come straight from the CSV and may be missing. -/
def cox_data (ns : List NRec5) : List CoxRow :=
  ns.map fun n =>
    { duration := some n.durationYears
      event := some (n.event : ℚ)
      isChildStar := some (n.isChildStarBinary : ℚ)
      childrenCount := n.childrenCount
      awardsCount := n.awardsCount }

def coxRowHasMissing (r : CoxRow) : Bool :=
  r.duration.isNone || r.event.isNone || r.isChildStar.isNone ||
    r.childrenCount.isNone || r.awardsCount.isNone

inductive CoxError where
  | InvalidInputError
deriving DecidableEq, Repr

/-- Modelled from the spec: `lifelines.CoxPHFitter.fit` is called by
`step5_psycho_economic_analysis.py` but its code is not part of this
repository.  Per the spec's §4.4 contract, only its fit-time input
validation is modelled: "fitting must fail with an InvalidInputError if any
required column contains missing values at fit time"; a validated table is
returned unchanged (the numerical partial-likelihood maximization itself is
out of scope here). -/
def cph_fit (rows : List CoxRow) : Except CoxError (List CoxRow) :=
  if rows.any coxRowHasMissing then .error .InvalidInputError
  else .ok rows

/-! ## Kaplan-Meier estimator

Modelled from the spec: `lifelines.KaplanMeierFitter` is called by the
scripts but its code is not part of this repository.  Per the spec's §4.3
contract, the fitted survival function over `(duration, event)` pairs is
`S(t) = ∏_{u ≤ t, u an event time} (1 - d_u / n_u)` with `d_u` the number of
events at time `u` and `n_u` the number still at risk at `u` (all
observations, event or censored, with duration `≥ u`). -/

def eventTimes (data : List (ℚ × Bool)) : Finset ℚ :=
  ((data.filter fun p => p.2).map fun p => p.1).toFinset

def atRisk (data : List (ℚ × Bool)) (u : ℚ) : ℕ :=
  (data.filter fun p => decide (u ≤ p.1)).length

def eventsAt (data : List (ℚ × Bool)) (u : ℚ) : ℕ :=
  (data.filter fun p => decide (p.1 = u) && p.2).length

/-- The fitted Kaplan-Meier survival function, queried at time `t`. -/
def KMsurv (data : List (ℚ × Bool)) (t : ℚ) : ℚ :=
  ∏ u ∈ (eventTimes data).filter (fun u => u ≤ t),
    (1 - (eventsAt data u : ℚ) / (atRisk data u : ℚ))

/-! ## Helper lemmas about the pipelines -/

theorem get_event_status_cases (d : Option Int) (c : Option String) :
    get_event_status d c = 0 ∨ get_event_status d c = 1 := by
  cases d with
  | none => exact Or.inl rfl
  | some x =>
    simp only [get_event_status]
    split
    · exact Or.inl rfl
    · exact Or.inr rfl

theorem get_status_cases (d : Option Int) (c : Option String) :
    get_status d c = 0 ∨ get_status d c = 1 := by
  cases d with
  | none => exact Or.inl rfl
  | some x =>
    simp only [get_status]
    split
    · exact Or.inl rfl
    · exact Or.inr rfl

/-- Any record retained by the shared normalization has a positive
day-duration, its year-duration derived by the fixed constant, and its
event flag computed by `get_event_status`. -/
theorem mem_normalizeA {today : Int} {raws : List RawRecord} {n : NRec}
    (h : n ∈ normalizeA today raws) :
    0 < n.durationDays ∧
    n.durationYears = (n.durationDays : ℚ) / daysPerYear ∧
    n.eventDivorce = get_event_status n.endDate n.endCause := by
  unfold normalizeA at h
  rw [List.mem_filter] at h
  obtain ⟨hmem, hpos⟩ := h
  rw [List.mem_filterMap] at hmem
  obtain ⟨r, hr, hmk⟩ := hmem
  refine ⟨by simpa using hpos, ?_⟩
  cases hs : r.startDate with
  | none => rw [hs] at hmk; simp at hmk
  | some s =>
    rw [hs] at hmk
    simp only [Option.some.injEq] at hmk
    subst hmk
    exact ⟨rfl, rfl⟩

/-- Any record retained by the step-5 pipeline has its derived columns
computed as in the source, and a positive duration. -/
theorem mem_step5AfterDuration {today : Int} {raws : List RawRecord5} {n : NRec5}
    (h : n ∈ step5AfterDuration today raws) :
    0 < n.durationYears ∧
    n.durationYears = (n.durationDays : ℚ) / daysPerYear ∧
    n.isChildStarBinary = (if n.ageAtDebut < 16 then 1 else 0) := by
  unfold step5AfterDuration at h
  rw [List.mem_filter] at h
  obtain ⟨hmem, hpos⟩ := h
  rw [List.mem_filterMap] at hmem
  obtain ⟨r, hr, hmk⟩ := hmem
  refine ⟨by simpa using hpos, ?_⟩
  cases hs : r.startDate with
  | none => rw [hs] at hmk; simp at hmk
  | some s =>
    cases hcb : r.celebrityBirth with
    | none => rw [hs, hcb] at hmk; simp at hmk
    | some cb =>
      cases hcs : r.careerStart with
      | none => rw [hs, hcb, hcs] at hmk; simp at hmk
      | some cs =>
        rw [hs, hcb, hcs] at hmk
        simp only [Option.some.injEq] at hmk
        subst hmk
        exact ⟨rfl, rfl⟩

/-- The classifier of `analysis.py`/`step2_analysis.py` decides exactly the
specification-level censoring condition: 0 iff the end date is missing or
the end-cause text case-insensitively contains `'death'` or `'widow'`,
1 otherwise. -/
theorem get_event_status_spec (d : Option Int) (c : Option String) :
    (get_event_status d c = 0 ↔
      d = none ∨ CaseInsensSub "death" (strOfCause c) ∨
        CaseInsensSub "widow" (strOfCause c)) ∧
    (get_event_status d c = 1 ↔
      d ≠ none ∧ ¬ CaseInsensSub "death" (strOfCause c) ∧
        ¬ CaseInsensSub "widow" (strOfCause c)) := by
  have hd : listHasSub "death".toList (lowerList (strOfCause c).toList) = true ↔
      CaseInsensSub "death" (strOfCause c) := by
    have h0 : lowerList "death".toList = "death".toList := rfl
    rw [← h0]
    exact listHasSub_lower_iff _ _
  have hw : listHasSub "widow".toList (lowerList (strOfCause c).toList) = true ↔
      CaseInsensSub "widow" (strOfCause c) := by
    have h0 : lowerList "widow".toList = "widow".toList := rfl
    rw [← h0]
    exact listHasSub_lower_iff _ _
  have hcond : (listHasSub "death".toList (lowerList (strOfCause c).toList) ||
      listHasSub "widow".toList (lowerList (strOfCause c).toList)) = true ↔
      (CaseInsensSub "death" (strOfCause c) ∨ CaseInsensSub "widow" (strOfCause c)) := by
    rw [Bool.or_eq_true, hd, hw]
  cases d with
  | none =>
    refine ⟨iff_of_true rfl (Or.inl rfl),
      iff_of_false (by intro h; simp [get_event_status] at h) ?_⟩
    rintro ⟨hne, -, -⟩
    exact hne rfl
  | some x =>
    simp only [get_event_status]
    split
    case isTrue h =>
      refine ⟨iff_of_true rfl (Or.inr (hcond.mp h)), iff_of_false (by decide) ?_⟩
      rintro ⟨-, hnd, hnw⟩
      exact (hcond.mp h).elim hnd hnw
    case isFalse h =>
      rw [hcond] at h
      push_neg at h
      refine ⟨iff_of_false (by decide) ?_, iff_of_true rfl ⟨by simp, h.1, h.2⟩⟩
      rintro (h' | h' | h')
      · exact Option.some_ne_none x h'
      · exact h.1 h'
      · exact h.2 h'

/-- C2: The event classifiers of the analysis scripts are NOT extensionally
equal.  On a record whose marriage ended with cause `"Widowed"`, the
classifier of `analysis.py`/`step2_analysis.py` (`get_event_status`, which
tests for `'death'` and `'widow'`) censors the record (0), while the
classifier of `step3_comparative_analysis.py`/`step5_psycho_economic_analysis.py`/
`step7_culture_analysis.py` (`get_status`, which only tests for `'death'`)
counts it as an observed divorce event (1). -/
theorem classifier_divergence_on_widowed :
    get_event_status (some 0) (some "Widowed") = 0 ∧
    get_status (some 0) (some "Widowed") = 1 ∧
    get_status (some 0) (some "Widowed") ≠ get_event_status (some 0) (some "Widowed") := by
  decide

/-- C10: A record with an end date but a missing (`NaN`) end cause is
classified as an observed divorce (1), not censored: `str(nan)` is
`"nan"`, which contains neither `'death'` nor `'widow'`.  Holds for the
classifier of `analysis.py`/`step2_analysis.py` and for the one of
`step3_comparative_analysis.py`/`step5`/`step7` alike. -/
theorem missing_cause_classified_as_event (d : Int) :
    get_event_status (some d) none = 1 ∧ get_status (some d) none = 1 :=
  ⟨rfl, rfl⟩

/-- C3 counterexample: `data_check.py` (cited for this claim alongside
`analysis.py`) computes `Duration_Days`/`Duration_Years` but applies
neither exclusion.  With `today = 100`: a row whose end date (day 5)
precedes its start date (day 10) is retained with `Duration_Days = -5 ≤ 0`
in its report table, and a row with a missing start date is also retained
(its celebrity still counts in the script's downstream
`value_counts`/`len(df)` report). -/
theorem data_check_retains_invalid_rows :
    (dataCheckNormalize 100 [⟨some 10, some 5⟩]).map (fun c => c.durationDays) =
      [some (-5)] ∧
    ¬ (0 : Int) < -5 ∧
    (dataCheckNormalize 100 [⟨none, some 5⟩]).length = 1 :=
  ⟨rfl, by decide, rfl⟩

/-- C3 amended: in the survival-analysis scripts' shared normalization
(`analysis.py`/`step2_analysis.py`; `step3`/`step5`/`step7` filter on the
equivalent `Duration_Years > 0`), every retained record satisfies
`duration_years = duration_days / 365.25` and `duration_days > 0`, and a
row with a missing start date contributes nothing to the normalized table;
`data_check.py`'s preliminary report, however, applies neither exclusion. -/
theorem normalization_invariants (today : Int) (raws : List RawRecord)
    (r : RawRecord) (pre post : List RawRecord) (hr : r.startDate = none) :
    (∀ n ∈ normalizeA today raws,
        n.durationYears = (n.durationDays : ℚ) / daysPerYear ∧ 0 < n.durationDays) ∧
    normalizeA today (pre ++ r :: post) = normalizeA today (pre ++ post) := by
  constructor
  · intro n hn
    obtain ⟨hpos, hyears, -⟩ := mem_normalizeA hn
    exact ⟨hyears, hpos⟩
  · simp only [normalizeA, List.filterMap_append, List.filterMap_cons, hr]

/-- Witness for the amended C3 at a concrete input: one all-missing row is
dropped, leaving the normalization of the remaining single-row table. -/
theorem normalization_invariants_witness :
    (⟨none, none, none, none, none, none, none⟩ : RawRecord).startDate = none ∧
    ((∀ n ∈ normalizeA 100 [⟨some 0, some 50, none, none, some "Divorce", none, none⟩],
        n.durationYears = (n.durationDays : ℚ) / daysPerYear ∧ 0 < n.durationDays) ∧
      normalizeA 100 ([] ++ ⟨none, none, none, none, none, none, none⟩ ::
          [⟨some 0, some 50, none, none, some "Divorce", none, none⟩]) =
        normalizeA 100 ([] ++ [⟨some 0, some 50, none, none, some "Divorce", none, none⟩])) :=
  ⟨rfl, normalization_invariants 100 _ _ [] _ rfl⟩

/-! ## C5: the age-gap outlier policy of `analysis.py` -/

/-- A raw row with an age gap of about 70 years (birth dates 25568 days
apart), an observed divorce after 3000 days. -/
def outlierRaw : RawRecord :=
  ⟨some 0, some 3000, some 0, some 25568, some "Divorce", some 50, some 10⟩

/-- `outlierRaw` after the shared normalization. -/
def outlierN : NRec :=
  ⟨0, some 3000, some 0, some 25568, some "Divorce", some 50, some 10,
    3000, ((3000 : Int) : ℚ) / daysPerYear, 1⟩

theorem outlier_gap_gt_60 : (60 : ℚ) < |((0 - 25568 : Int) : ℚ) / daysPerYear| := by
  rw [show ((0 - 25568 : Int) : ℚ) = -25568 by norm_num]
  rw [abs_div, abs_neg, abs_of_nonneg (by norm_num : (0:ℚ) ≤ 25568),
    abs_of_nonneg (by norm_num [daysPerYear] : (0:ℚ) ≤ daysPerYear)]
  norm_num [daysPerYear]

/-- C5 counterexample: a record with an age gap above 60 years survives
normalization (it is in the overall dataframe `df`), but `analysis.py`
computes its "unstratified" spouse-type statistics (`fame_stats`, lines
56-60) on `df_clean` as well, so the record is NOT retained there — the
fame-stats input for this one-row table is empty.  (It is, as the claim
says, also excluded from the age-gap-stratified statistics.) -/
theorem age_gap_outlier_not_in_fame_stats :
    normalizeA 5000 [outlierRaw] = [outlierN] ∧
    ageGap outlierN = some (|((0 - 25568 : Int) : ℚ) / daysPerYear|) ∧
    (60 : ℚ) < |((0 - 25568 : Int) : ℚ) / daysPerYear| ∧
    fameStatsInput 5000 [outlierRaw] = [] ∧
    ageGapStatsInput 5000 [outlierRaw] = [] := by
  have hfame : fameStatsInput 5000 [outlierRaw] = [] := by
    have hn : normalizeA 5000 [outlierRaw] = [outlierN] := rfl
    unfold fameStatsInput df_clean
    rw [hn, List.filter_cons]
    have hpred : (match ageGap outlierN with
        | some g => decide (g < 60)
        | none => false) = false := by
      rw [show ageGap outlierN = some (|((0 - 25568 : Int) : ℚ) / daysPerYear|) from rfl]
      exact decide_eq_false (not_lt.mpr (le_of_lt outlier_gap_gt_60))
    rw [hpred]
    simp
  exact ⟨rfl, rfl, outlier_gap_gt_60, hfame, hfame⟩

/-- C5 amended: every record whose age gap is above 60 years is excluded
not only from the age-gap-stratified statistics of `analysis.py` but also
from its spouse-type (`fame_stats`) statistics, because both are computed
on the same cleaned dataframe `df_clean`; such records remain only in the
normalized dataframe `df` itself. -/
theorem age_gap_outlier_excluded_from_clean_stats (today : Int)
    (raws : List RawRecord) (n : NRec) (g : ℚ)
    (hg : ageGap n = some g) (h60 : 60 < g) :
    n ∉ ageGapStatsInput today raws ∧ n ∉ fameStatsInput today raws := by
  have key : n ∉ df_clean today raws := by
    intro hmem
    unfold df_clean at hmem
    rw [List.mem_filter] at hmem
    have h2 := hmem.2
    rw [hg] at h2
    have hlt : g < 60 := of_decide_eq_true h2
    exact absurd hlt (not_lt.mpr (le_of_lt h60))
  exact ⟨key, key⟩

/-- Witness for the amended C5: the concrete ~70-year-gap record is
excluded from both statistic inputs. -/
theorem age_gap_outlier_excluded_witness :
    ageGap outlierN = some (|((0 - 25568 : Int) : ℚ) / daysPerYear|) ∧
    (60 : ℚ) < |((0 - 25568 : Int) : ℚ) / daysPerYear| ∧
    (outlierN ∉ ageGapStatsInput 5000 [outlierRaw] ∧
      outlierN ∉ fameStatsInput 5000 [outlierRaw]) :=
  ⟨rfl, outlier_gap_gt_60,
    age_gap_outlier_excluded_from_clean_stats 5000 [outlierRaw] outlierN _ rfl
      outlier_gap_gt_60⟩

/-- C6: In `step2_analysis.py`, every row of the logistic-regression
training set `model_data` is either an observed divorce event or a
censored row with duration strictly above the 5-year threshold; a censored
row with duration at or below 5 years is excluded; and the binary target
`Target_Short_Marriage` is exactly the indicator of `duration ≤ 5`. -/
theorem logistic_training_set_characterization (today : Int) (raws : List RawRecord) :
    (∀ n ∈ model_data today raws,
        (n.eventDivorce = 1 ∨ (n.eventDivorce = 0 ∧ 5 < n.durationYears)) ∧
        (Target_Short_Marriage n = 1 ↔ n.durationYears ≤ 5) ∧
        (Target_Short_Marriage n = 0 ↔ 5 < n.durationYears)) ∧
    (∀ n ∈ normalizeA today raws,
        n.eventDivorce = 0 → n.durationYears ≤ 5 → n ∉ model_data today raws) := by
  constructor
  · intro n hn
    unfold model_data at hn
    rw [List.mem_filter] at hn
    obtain ⟨hbase, hcond⟩ := hn
    rw [Bool.or_eq_true, beq_iff_eq, decide_eq_true_eq] at hcond
    refine ⟨?_, ?_, ?_⟩
    · rcases hcond with h1 | h5
      · exact Or.inl h1
      · rcases (mem_normalizeA hbase).2.2 ▸ get_event_status_cases n.endDate n.endCause
          with h0 | h1
        · exact Or.inr ⟨h0, h5⟩
        · exact Or.inl h1
    · unfold Target_Short_Marriage
      split
      case isTrue h => exact iff_of_true rfl h
      case isFalse h => exact iff_of_false (by decide) h
    · unfold Target_Short_Marriage
      split
      case isTrue h => exact iff_of_false (by decide) (not_lt.mpr h)
      case isFalse h => exact iff_of_true rfl (lt_of_not_le h)
  · intro n _ hev hdur hmem
    unfold model_data at hmem
    rw [List.mem_filter, Bool.or_eq_true, beq_iff_eq, decide_eq_true_eq] at hmem
    rcases hmem.2 with h1 | h5
    · rw [hev] at h1
      exact absurd h1 (by decide)
    · exact absurd hdur (not_le.mpr h5)

/-- Closed instance of the C6 characterization on a concrete two-row table
(one short observed divorce, one long ongoing marriage). -/
theorem logistic_training_set_witness :
    (∀ n ∈ model_data 4000 [⟨some 0, some 300, none, none, some "Divorce", none, none⟩,
        ⟨some 0, none, none, none, none, none, none⟩],
        (n.eventDivorce = 1 ∨ (n.eventDivorce = 0 ∧ 5 < n.durationYears)) ∧
        (Target_Short_Marriage n = 1 ↔ n.durationYears ≤ 5) ∧
        (Target_Short_Marriage n = 0 ↔ 5 < n.durationYears)) ∧
    (∀ n ∈ normalizeA 4000 [⟨some 0, some 300, none, none, some "Divorce", none, none⟩,
        ⟨some 0, none, none, none, none, none, none⟩],
        n.eventDivorce = 0 → n.durationYears ≤ 5 →
          n ∉ model_data 4000 [⟨some 0, some 300, none, none, some "Divorce", none, none⟩,
            ⟨some 0, none, none, none, none, none, none⟩]) :=
  logistic_training_set_characterization 4000 _

/-! ## C7: the child-star feature of `step5_psycho_economic_analysis.py` -/

/-- Following the claim's words (for refinement comparison with the code):
`age_at_career_start = career_start_year − birth_year` in whole years. -/
def specAgeAtCareerStart (birthYear careerStartYear : Int) : Int :=
  careerStartYear - birthYear

/-- Following the claim's words: `is_child_star = (age_at_career_start < 16)`. -/
def specIsChildStar (birthYear careerStartYear : Int) : Prop :=
  specAgeAtCareerStart birthYear careerStartYear < 16

/-- Following the claim's words: a record is excluded iff its age at career
start is invalid, i.e. negative or greater than 80. -/
def specChildStarExcluded (birthYear careerStartYear : Int) : Prop :=
  specAgeAtCareerStart birthYear careerStartYear < 0 ∨
    80 < specAgeAtCareerStart birthYear careerStartYear

/-- Raw step-5 row for a celebrity born 1920-01-01 (day 0) whose career
started 2000-01-01 (day 29220: 80·365 days plus 20 leap days, for the leap
years 1920, 1924, …, 1996); marriage from day 30000 to day 31000, cause
divorce.  The code's `Age_At_Debut` is 29220 / 365.25 = 80 exactly. -/
def debut80Raw : RawRecord5 :=
  ⟨some 30000, some 31000, some 0, some 29220, some "Divorce", some 1, some 2⟩

/-- `debut80Raw` after the duration stage of step 5 (before the age filter). -/
def debut80N : NRec5 :=
  { durationDays := 1000
    durationYears := ((1000 : Int) : ℚ) / daysPerYear
    event := 1
    ageAtDebut := ((29220 : Int) : ℚ) / daysPerYear
    isChildStarBinary := if ((29220 : Int) : ℚ) / daysPerYear < 16 then 1 else 0
    childrenCount := some 1
    awardsCount := some 2
    childrenCategory := Children_Category 1 }

/-- Raw step-5 row for a celebrity born 1980-06-15 (day 0) whose career
started 1996-01-01 (day 5678: sixteen years 1980-06-15 → 1996-06-15 are
16·365 + 4 leap days = 5844 days, minus the 166 days from 1996-01-01 to
1996-06-15); marriage from day 30000 to day 31000, cause divorce.  The
code's `Age_At_Debut` is 5678 / 365.25 ≈ 15.55, below 16, although the
year difference 1996 − 1980 is exactly 16. -/
def debutMidYearRaw : RawRecord5 :=
  ⟨some 30000, some 31000, some 0, some 5678, some "Divorce", some 1, some 2⟩

/-- `debutMidYearRaw` after the duration stage of step 5. -/
def debutMidYearN : NRec5 :=
  { durationDays := 1000
    durationYears := ((1000 : Int) : ℚ) / daysPerYear
    event := 1
    ageAtDebut := ((5678 : Int) : ℚ) / daysPerYear
    isChildStarBinary := if ((5678 : Int) : ℚ) / daysPerYear < 16 then 1 else 0
    childrenCount := some 1
    awardsCount := some 2
    childrenCategory := Children_Category 1 }

theorem debut80_duration_pos : (0 : ℚ) < ((1000 : Int) : ℚ) / daysPerYear := by
  norm_num [daysPerYear]

/-- C7 counterexample: the code disagrees with the claim's formula and with
the claim's exclusion set.  (a) The record of `debut80Raw` has
`age_at_career_start = 2000 − 1920 = 80`, which is neither negative nor
greater than 80, so by the claim it stays in the child-star analysis; the
code computes `Age_At_Debut = 29220/365.25 = 80` and drops it at the filter
`(Age_At_Debut > 0) & (Age_At_Debut < 80)`.  (b) The record of
`debutMidYearRaw` has `career_start_year − birth_year = 16`, so by the
claim it is not a child star; the code computes `5678/365.25 < 16` and
flags it `Is_Child_Star_Binary = 1`. -/
theorem child_star_policy_counterexample :
    (step5Normalized 40000 [debut80Raw] = [] ∧
      ¬ specChildStarExcluded 1920 2000) ∧
    ((step5Normalized 40000 [debutMidYearRaw]).map (fun n => n.isChildStarBinary) =
      [1] ∧ ¬ specIsChildStar 1980 1996) := by
  have hage80 : debut80N.ageAtDebut = 80 := by
    show ((29220 : Int) : ℚ) / daysPerYear = 80
    norm_num [daysPerYear]
  have hageMid : debutMidYearN.ageAtDebut < 16 := by
    show ((5678 : Int) : ℚ) / daysPerYear < 16
    norm_num [daysPerYear]
  constructor
  · constructor
    · have e1 : step5Normalized 40000 [debut80Raw] =
          (List.filter (fun n => decide (0 < n.durationYears)) [debut80N]).filter
            (fun n => decide (0 < n.ageAtDebut) && decide (n.ageAtDebut < 80)) := rfl
      rw [e1, List.filter_cons,
        decide_eq_true (show (0 : ℚ) < debut80N.durationYears from debut80_duration_pos)]
      simp only [if_true, List.filter_nil, List.filter_cons]
      rw [show decide (debut80N.ageAtDebut < 80) = false from
        decide_eq_false (by rw [hage80]; norm_num)]
      simp
    · unfold specChildStarExcluded specAgeAtCareerStart
      push_neg
      constructor <;> decide
  · constructor
    · have e1 : step5Normalized 40000 [debutMidYearRaw] =
          (List.filter (fun n => decide (0 < n.durationYears)) [debutMidYearN]).filter
            (fun n => decide (0 < n.ageAtDebut) && decide (n.ageAtDebut < 80)) := rfl
      rw [e1, List.filter_cons,
        decide_eq_true (show (0 : ℚ) < debutMidYearN.durationYears from debut80_duration_pos)]
      simp only [if_true, List.filter_nil, List.filter_cons]
      rw [show decide (0 < debutMidYearN.ageAtDebut) = true from
        decide_eq_true (by show (0:ℚ) < ((5678 : Int) : ℚ) / daysPerYear; norm_num [daysPerYear])]
      rw [show decide (debutMidYearN.ageAtDebut < 80) = true from
        decide_eq_true (by show ((5678 : Int) : ℚ) / daysPerYear < 80; norm_num [daysPerYear])]
      simp only [Bool.and_self, if_true, List.map_cons, List.map_nil, List.cons.injEq, and_true]
      show (if ((5678 : Int) : ℚ) / daysPerYear < 16 then 1 else 0) = 1
      exact if_pos (by norm_num [daysPerYear])
    · unfold specIsChildStar specAgeAtCareerStart
      decide

/-- C7 amended: in `step5_psycho_economic_analysis.py`, the age at career
start is `Age_At_Debut = (career_start_date − birth_date).days / 365.25`
(the career start year being parsed as January 1 of that year), exactly
the records with `Age_At_Debut ≤ 0` or `Age_At_Debut ≥ 80` are excluded
from the child-star analysis, and for every retained record
`Is_Child_Star_Binary = 1` iff `Age_At_Debut < 16`. -/
theorem child_star_feature_characterization (today : Int) (raws : List RawRecord5) :
    (∀ n ∈ step5AfterDuration today raws,
        (n ∈ step5Normalized today raws ↔ 0 < n.ageAtDebut ∧ n.ageAtDebut < 80)) ∧
    (∀ n ∈ step5Normalized today raws,
        (n.isChildStarBinary = 1 ↔ n.ageAtDebut < 16) ∧
        (n.isChildStarBinary = 0 ↔ 16 ≤ n.ageAtDebut)) := by
  constructor
  · intro n hn
    unfold step5Normalized
    rw [List.mem_filter]
    constructor
    · rintro ⟨-, hb⟩
      rw [Bool.and_eq_true, decide_eq_true_eq, decide_eq_true_eq] at hb
      exact hb
    · intro hb
      refine ⟨hn, ?_⟩
      rw [Bool.and_eq_true, decide_eq_true_eq, decide_eq_true_eq]
      exact hb
  · intro n hn
    have hmem : n ∈ step5AfterDuration today raws := List.mem_of_mem_filter hn
    have hbin := (mem_step5AfterDuration hmem).2.2
    constructor
    · rw [hbin]
      split
      case isTrue h => exact iff_of_true rfl h
      case isFalse h => exact iff_of_false (by decide) h
    · rw [hbin]
      split
      case isTrue h => exact iff_of_false (by decide) (not_le.mpr h)
      case isFalse h => exact iff_of_true rfl (not_lt.mp h)

/-- Closed instance of the amended C7 on a concrete one-row table. -/
theorem child_star_feature_witness :
    (∀ n ∈ step5AfterDuration 40000 [debutMidYearRaw],
        (n ∈ step5Normalized 40000 [debutMidYearRaw] ↔
          0 < n.ageAtDebut ∧ n.ageAtDebut < 80)) ∧
    (∀ n ∈ step5Normalized 40000 [debutMidYearRaw],
        (n.isChildStarBinary = 1 ↔ n.ageAtDebut < 16) ∧
        (n.isChildStarBinary = 0 ↔ 16 ≤ n.ageAtDebut)) :=
  child_star_feature_characterization 40000 _

/-- C8 counterexample: `pd.cut` with `bins=[-1, 0, 2, 20]` has 20 as its
top edge, so a children count of 21 falls outside every bin and gets no
category — it is not mapped to the `'3+ Kids'` bucket, contradicting
"every count of 3 or more maps to the '3+' bucket". -/
theorem children_bucket_counterexample :
    Children_Category 21 = none ∧ Children_Category 21 ≠ some "3+ Kids" := by
  have h : Children_Category 21 = none := by
    unfold Children_Category
    rw [if_neg (by norm_num), if_neg (by norm_num), if_neg (by norm_num)]
  refine ⟨h, ?_⟩
  rw [h]
  simp

/-- C8 amended: `Children_Category` bins a children count of 0 into
`'No Kids'`, counts 1 and 2 into `'1-2 Kids'`, and counts 3 through 20 into
`'3+ Kids'`; counts above the top bin edge 20 receive no category (missing),
so the binning is not total on the non-negative integers. -/
theorem children_bucket_characterization (count : ℕ) :
    (count = 0 → Children_Category (count : ℚ) = some "No Kids") ∧
    (count = 1 ∨ count = 2 → Children_Category (count : ℚ) = some "1-2 Kids") ∧
    (3 ≤ count → count ≤ 20 → Children_Category (count : ℚ) = some "3+ Kids") ∧
    (20 < count → Children_Category (count : ℚ) = none) := by
  refine ⟨?_, ?_, ?_, ?_⟩
  · rintro rfl
    unfold Children_Category
    rw [if_pos (by norm_num)]
  · rintro (rfl | rfl) <;> unfold Children_Category
    · rw [if_neg (by norm_num), if_pos (by norm_num)]
    · rw [if_neg (by norm_num), if_pos (by norm_num)]
  · intro h3 h20
    have hc3 : (3 : ℚ) ≤ (count : ℚ) := by exact_mod_cast h3
    have hc20 : (count : ℚ) ≤ 20 := by exact_mod_cast h20
    unfold Children_Category
    rw [if_neg (fun hh => by linarith [hh.2]),
      if_neg (fun hh => by linarith [hh.2]),
      if_pos ⟨by linarith, hc20⟩]
  · intro h
    have hc : (20 : ℚ) < (count : ℚ) := by exact_mod_cast h
    unfold Children_Category
    rw [if_neg (fun hh => by linarith [hh.2]),
      if_neg (fun hh => by linarith [hh.2]),
      if_neg (fun hh => by linarith [hh.2])]

/-- Witness for the amended C8: count 5 lands in the `'3+ Kids'` bucket. -/
theorem children_bucket_witness :
    (3 ≤ 5 ∧ 5 ≤ 20) ∧ Children_Category ((5 : ℕ) : ℚ) = some "3+ Kids" :=
  ⟨by decide, (children_bucket_characterization 5).2.2.1 (by decide) (by decide)⟩

theorem cox_any_missing_iff (ns : List NRec5) :
    (cox_data ns).any coxRowHasMissing = true ↔
      ∃ n ∈ ns, n.childrenCount = none ∨ n.awardsCount = none := by
  simp [cox_data, List.any_map, List.any_eq_true, Function.comp, coxRowHasMissing,
    Option.isNone_iff_eq_none]

/-- C9: fitting the Cox model on the step-5 table fails with an
`InvalidInputError` exactly when some required column has a missing value
at fit time — which, since `Duration_Years`, `Event` and
`Is_Child_Star_Binary` are computed for every retained row, happens exactly
when some retained record is missing `Children_Count` or `Awards_Count`;
otherwise the fit proceeds on the table unchanged (no silent fit over
missing values). -/
theorem cox_fit_rejects_missing_values (today : Int) (raws : List RawRecord5) :
    (cph_fit (cox_data (step5Normalized today raws)) =
        Except.error CoxError.InvalidInputError ↔
      ∃ n ∈ step5Normalized today raws,
        n.childrenCount = none ∨ n.awardsCount = none) ∧
    (cph_fit (cox_data (step5Normalized today raws)) =
        Except.ok (cox_data (step5Normalized today raws)) ↔
      ¬ ∃ n ∈ step5Normalized today raws,
        n.childrenCount = none ∨ n.awardsCount = none) := by
  unfold cph_fit
  by_cases hc : (cox_data (step5Normalized today raws)).any coxRowHasMissing = true
  · rw [if_pos hc]
    refine ⟨iff_of_true rfl ((cox_any_missing_iff _).mp hc), iff_of_false (by simp) ?_⟩
    exact fun hn => hn ((cox_any_missing_iff _).mp hc)
  · rw [if_neg hc]
    refine ⟨iff_of_false (by simp) ?_, iff_of_true rfl ?_⟩
    · exact fun hex => hc ((cox_any_missing_iff _).mpr hex)
    · exact fun hex => hc ((cox_any_missing_iff _).mpr hex)

/-- Closed instance of C9 on a concrete one-row table whose record is
missing its children count. -/
theorem cox_fit_rejects_missing_values_witness :
    (cph_fit (cox_data (step5Normalized 40000
        [⟨some 30000, some 31000, some 0, some 5678, some "Divorce", none, some 2⟩])) =
        Except.error CoxError.InvalidInputError ↔
      ∃ n ∈ step5Normalized 40000
          [⟨some 30000, some 31000, some 0, some 5678, some "Divorce", none, some 2⟩],
        n.childrenCount = none ∨ n.awardsCount = none) ∧
    (cph_fit (cox_data (step5Normalized 40000
        [⟨some 30000, some 31000, some 0, some 5678, some "Divorce", none, some 2⟩])) =
        Except.ok (cox_data (step5Normalized 40000
          [⟨some 30000, some 31000, some 0, some 5678, some "Divorce", none, some 2⟩])) ↔
      ¬ ∃ n ∈ step5Normalized 40000
          [⟨some 30000, some 31000, some 0, some 5678, some "Divorce", none, some 2⟩],
        n.childrenCount = none ∨ n.awardsCount = none) :=
  cox_fit_rejects_missing_values 40000 _

/-! ## Kaplan-Meier invariants -/

theorem length_filter_mono {α : Type} (l : List α) (p q : α → Bool)
    (h : ∀ a, p a = true → q a = true) :
    (l.filter p).length ≤ (l.filter q).length := by
  induction l with
  | nil => simp
  | cons a t ih =>
    by_cases hp : p a = true
    · rw [List.filter_cons, List.filter_cons, if_pos hp, if_pos (h a hp)]
      simpa using ih
    · rw [List.filter_cons, if_neg hp, List.filter_cons]
      split
      · exact le_trans ih (by simp)
      · exact ih

theorem eventsAt_le_atRisk (data : List (ℚ × Bool)) (u : ℚ) :
    eventsAt data u ≤ atRisk data u := by
  unfold eventsAt atRisk
  apply length_filter_mono
  intro a ha
  rw [Bool.and_eq_true, decide_eq_true_eq] at ha
  exact decide_eq_true (le_of_eq ha.1.symm)

theorem km_factor_nonneg (data : List (ℚ × Bool)) (u : ℚ) :
    0 ≤ 1 - (eventsAt data u : ℚ) / (atRisk data u : ℚ) := by
  rcases Nat.eq_zero_or_pos (atRisk data u) with h0 | hpos
  · have he : eventsAt data u = 0 := Nat.le_zero.mp (h0 ▸ eventsAt_le_atRisk data u)
    rw [he, h0]
    norm_num
  · have hle : (eventsAt data u : ℚ) / (atRisk data u : ℚ) ≤ 1 := by
      rw [div_le_one (by exact_mod_cast hpos)]
      exact_mod_cast eventsAt_le_atRisk data u
    linarith

theorem km_factor_le_one (data : List (ℚ × Bool)) (u : ℚ) :
    1 - (eventsAt data u : ℚ) / (atRisk data u : ℚ) ≤ 1 := by
  have h : 0 ≤ (eventsAt data u : ℚ) / (atRisk data u : ℚ) :=
    div_nonneg (by positivity) (by positivity)
  linarith

theorem KMsurv_nonneg (data : List (ℚ × Bool)) (t : ℚ) : 0 ≤ KMsurv data t :=
  Finset.prod_nonneg fun u _ => km_factor_nonneg data u

theorem KMsurv_le_one (data : List (ℚ × Bool)) (t : ℚ) : KMsurv data t ≤ 1 :=
  Finset.prod_le_one (fun u _ => km_factor_nonneg data u)
    (fun u _ => km_factor_le_one data u)

theorem KMsurv_antitone (data : List (ℚ × Bool)) (s t : ℚ) (hst : s ≤ t) :
    KMsurv data t ≤ KMsurv data s := by
  unfold KMsurv
  have hsub : (eventTimes data).filter (fun u => u ≤ s) ⊆
      (eventTimes data).filter (fun u => u ≤ t) := by
    intro u hu
    rw [Finset.mem_filter] at hu ⊢
    exact ⟨hu.1, le_trans hu.2 hst⟩
  rw [← Finset.prod_sdiff hsub]
  have h1 : (∏ u ∈ ((eventTimes data).filter (fun u => u ≤ t) \
      (eventTimes data).filter (fun u => u ≤ s)),
        (1 - (eventsAt data u : ℚ) / (atRisk data u : ℚ))) ≤ 1 :=
    Finset.prod_le_one (fun u _ => km_factor_nonneg data u)
      (fun u _ => km_factor_le_one data u)
  have h2 : 0 ≤ ∏ u ∈ (eventTimes data).filter (fun u => u ≤ s),
      (1 - (eventsAt data u : ℚ) / (atRisk data u : ℚ)) :=
    Finset.prod_nonneg fun u _ => km_factor_nonneg data u
  exact mul_le_of_le_one_left h2 h1

theorem KMsurv_zero (data : List (ℚ × Bool)) (hpos : ∀ p ∈ data, 0 < p.1) :
    KMsurv data 0 = 1 := by
  unfold KMsurv
  have hempty : (eventTimes data).filter (fun u => u ≤ (0 : ℚ)) = ∅ := by
    rw [Finset.filter_eq_empty_iff]
    intro u hu
    unfold eventTimes at hu
    rw [List.mem_toFinset, List.mem_map] at hu
    obtain ⟨p, hp, rfl⟩ := hu
    exact not_le.mpr (hpos p (List.mem_of_mem_filter hp))
  rw [hempty, Finset.prod_empty]

/-- Every age-gap/child-star/children/country stratum the scripts fit is a
filtered subset of a normalized table, so its durations are all positive
(shown here for the step-5 table; the other scripts filter durations
positive in the same way). -/
theorem stratum_durations_pos (today : Int) (raws : List RawRecord5)
    (pred : NRec5 → Bool) :
    ∀ p ∈ ((step5Normalized today raws).filter pred).map
        (fun n => (n.durationYears, n.event == 1)), 0 < p.1 := by
  intro p hp
  rw [List.mem_map] at hp
  obtain ⟨n, hn, rfl⟩ := hp
  have h1 : n ∈ step5Normalized today raws := List.mem_of_mem_filter hn
  have h2 : n ∈ step5AfterDuration today raws := List.mem_of_mem_filter h1
  exact (mem_step5AfterDuration h2).1

/-- C4: Modelled from the spec (the scripts fit through
`lifelines.KaplanMeierFitter`, whose code is not in this repository; the
estimator here follows the spec's §4.3 contract).  For any fit input of
`(duration, event)` pairs with positive durations — as every stratum the
scripts fit has, the normalizations having dropped non-positive durations —
the fitted survival function is monotonically non-increasing, lies in
`[0, 1]` at every time point, and equals exactly 1 at time 0. -/
theorem km_survival_invariants (pairs : List (ℚ × Bool))
    (hpos : ∀ p ∈ pairs, 0 < p.1) :
    (∀ s t : ℚ, s ≤ t → KMsurv pairs t ≤ KMsurv pairs s) ∧
    (∀ t : ℚ, 0 ≤ KMsurv pairs t ∧ KMsurv pairs t ≤ 1) ∧
    KMsurv pairs 0 = 1 :=
  ⟨fun s t hst => KMsurv_antitone pairs s t hst,
   fun t => ⟨KMsurv_nonneg pairs t, KMsurv_le_one pairs t⟩,
   KMsurv_zero pairs hpos⟩

/-- Witness for C4 at a concrete fit input (one observed event at 2 years,
one censored observation at 3 years). -/
theorem km_survival_invariants_witness :
    (∀ p ∈ [((2 : ℚ), true), ((3 : ℚ), false)], 0 < p.1) ∧
    ((∀ s t : ℚ, s ≤ t →
        KMsurv [((2 : ℚ), true), ((3 : ℚ), false)] t ≤
          KMsurv [((2 : ℚ), true), ((3 : ℚ), false)] s) ∧
      (∀ t : ℚ, 0 ≤ KMsurv [((2 : ℚ), true), ((3 : ℚ), false)] t ∧
        KMsurv [((2 : ℚ), true), ((3 : ℚ), false)] t ≤ 1) ∧
      KMsurv [((2 : ℚ), true), ((3 : ℚ), false)] 0 = 1) := by
  have hp : ∀ p ∈ [((2 : ℚ), true), ((3 : ℚ), false)], 0 < p.1 := by
    intro p hp
    rcases List.mem_pair.mp hp with rfl | rfl <;> norm_num
  exact ⟨hp, km_survival_invariants _ hp⟩

/-- C1: For every record retained by the normalization of
`analysis.py`/`step2_analysis.py`, the event indicator is 0 if the end date
is missing; otherwise 0 if the end-cause text contains a death/widowhood
keyword (`'death'`, `'widow'`) under case-insensitive substring match;
otherwise 1 (observed divorce/separation). -/
theorem event_classification_follows_spec (today : Int) (raws : List RawRecord)
    (n : NRec) (hn : n ∈ normalizeA today raws) :
    (n.eventDivorce = 0 ↔
      n.endDate = none ∨ CaseInsensSub "death" (strOfCause n.endCause) ∨
        CaseInsensSub "widow" (strOfCause n.endCause)) ∧
    (n.eventDivorce = 1 ↔
      n.endDate ≠ none ∧ ¬ CaseInsensSub "death" (strOfCause n.endCause) ∧
        ¬ CaseInsensSub "widow" (strOfCause n.endCause)) := by
  rw [(mem_normalizeA hn).2.2]
  exact get_event_status_spec n.endDate n.endCause

/-- Witness for C1 at the concrete divorced record `outlierN`. -/
theorem event_classification_witness :
    (outlierN ∈ normalizeA 5000 [outlierRaw]) ∧
    ((outlierN.eventDivorce = 0 ↔
        outlierN.endDate = none ∨ CaseInsensSub "death" (strOfCause outlierN.endCause) ∨
          CaseInsensSub "widow" (strOfCause outlierN.endCause)) ∧
      (outlierN.eventDivorce = 1 ↔
        outlierN.endDate ≠ none ∧ ¬ CaseInsensSub "death" (strOfCause outlierN.endCause) ∧
          ¬ CaseInsensSub "widow" (strOfCause outlierN.endCause))) := by
  have hmem : outlierN ∈ normalizeA 5000 [outlierRaw] := by
    rw [show normalizeA 5000 [outlierRaw] = [outlierN] from rfl]
    exact List.mem_singleton.mpr rfl
  exact ⟨hmem, event_classification_follows_spec 5000 [outlierRaw] outlierN hmem⟩

/-- Closed instance of C10 at a concrete end date. -/
theorem missing_cause_witness :
    get_event_status (some 7) none = 1 ∧ get_status (some 7) none = 1 :=
  missing_cause_classified_as_event 7
